import Mathlib

/-!
# Verification of the ToDoApp authentication and task-ownership core

Shallow embedding of `app/services/auth_service.py`,
`app/services/task_service.py`, `app/schemas/task.py`,
`app/schemas/user.py`, `app/db/models.py` and the routers in
`app/api/auth.py` / `app/api/tasks.py`.

Modelling conventions:
* Timestamps are `Int` values counted in whole seconds (UTC).  This matches
  the one-second granularity of the JWT `exp` claim (a NumericDate).
* The relational store is a list of rows in the order the engine yields
  them; `SELECT ... FILTER` is `List.filter`, `scalar_one_or_none` is
  `scalarOneOrNone` below (it errors on several matching rows, exactly as
  SQLAlchemy raises `MultipleResultsFound`).
* A JWT signed with the application secret is fully determined by its
  claim set (HS256 signing of an identical payload is deterministic), so a
  token string is embedded as `JWT.signed claims`; every other string is
  `JWT.malformed raw`.  String equality of tokens is equality of `JWT`
  values.
* Python exceptions that cross the service boundary are `Except PyError`.
-/

deriving instance DecidableEq for Except

namespace ToDoApp

/-- Default `ACCESS_TOKEN_EXPIRE_MINUTES` from `app/core/config.py`. -/
def ACCESS_TOKEN_EXPIRE_MINUTES : Int := 30

/-- Default `REFRESH_TOKEN_EXPIRE_DAYS` from `app/core/config.py`. -/
def REFRESH_TOKEN_EXPIRE_DAYS : Int := 7

/-- Lifetime of an access token in seconds. -/
def accessTokenSecs : Int := 60 * ACCESS_TOKEN_EXPIRE_MINUTES

/-- Lifetime of a refresh token in seconds. -/
def refreshTokenSecs : Int := 86400 * REFRESH_TOKEN_EXPIRE_DAYS

/-- The `type` claim of a token (`"access"` or `"refresh"`). -/
inductive TokenType where
  | access
  | refresh
deriving DecidableEq, Repr

/-- The claim set `\x7bsub, exp, type\x7d` carried by every token issued by
`AuthService.create_access_token` / `create_refresh_token`. -/
structure Claims where
  sub : String
  exp : Int
  typ : TokenType
deriving DecidableEq, Repr

/-- A token string.  `signed c` is the (unique, deterministic) HS256 JWT for
claim set `c` under the application secret; any string that is not such a
token is `malformed`. -/
inductive JWT where
  | signed (c : Claims)
  | malformed (raw : String)
deriving DecidableEq, Repr

/-- A password digest as stored in `User.hashed_password`.
`bcrypt salt plain` stands for the bcrypt digest of `plain` under `salt`
(bcrypt verification recomputes the hash from the embedded salt, so the
digest is determined by the pair); `unrecognized raw` is any string that
passlib cannot identify as a hash of a configured scheme. -/
inductive Digest where
  | bcrypt (salt : Nat) (plain : String)
  | unrecognized (raw : String)
deriving DecidableEq, Repr

/-- An exception escaping a service call. `http` is FastAPI's
`HTTPException`; `unknownHash` is passlib's `UnknownHashError`;
`multipleResults` is SQLAlchemy's `MultipleResultsFound`; `typeError` is
Python's `TypeError` (raised by a call with missing arguments). -/
inductive PyError where
  | http (status : Nat) (detail : String) (headers : List (String × String))
  | unknownHash
  | multipleResults
  | typeError
deriving DecidableEq, Repr

/-- Row of the `users` table (`app/db/models.py`). -/
structure User where
  id : Nat
  username : String
  hashed_password : Digest
  refresh_token : Option JWT
  is_active : Bool
deriving DecidableEq, Repr

/-- Row of the `tasks` table (`app/db/models.py`). -/
structure Task where
  id : Nat
  created_at : Int
  updated_at : Int
  datetime_to_do : Int
  task_info : String
  is_completed : Bool
  user_id : Nat
deriving DecidableEq, Repr

/-- Embeds `Result.scalar_one_or_none()` over the rows matched by a query:
`none` for no row, the row if unique, and SQLAlchemy's
`MultipleResultsFound` otherwise. -/
def scalarOneOrNone : List α → Except PyError (Option α)
  | [] => .ok none
  | [a] => .ok (some a)
  | _ => .error .multipleResults

/-- The `WWW-Authenticate: Bearer` header attached to every 401 raised by
`AuthService`. -/
def bearerHeader : List (String × String) := [("WWW-Authenticate", "Bearer")]

/-- The single 401 used for both login failure causes
(`app/services/auth_service.py`, `AuthService.login`). -/
def incorrectCreds : PyError :=
  .http 401 "Incorrect username or password" bearerHeader

/-- The 401 raised for a refresh token that fails verification
(`AuthService.verify_refresh_token`). -/
def invalidRefresh : PyError :=
  .http 401 "Invalid refresh token" bearerHeader

/-- Embeds `jose.jwt.decode(token, SECRET_KEY, algorithms=[ALGORITHM])` at clock
reading `now`: fails (raises `JWTError`, here `none`) on a string not
signed with the secret and on an expired token (`ExpiredSignatureError`
fires when the `exp` claim is smaller than the current timestamp). -/
def jwt_decode (t : JWT) (now : Int) : Option Claims :=
  match t with
  | .malformed _ => none
  | .signed c => if c.exp < now then none else some c

/-- Embeds `AuthService.create_access_token`: claim set
`\x7bsub, exp = now + 30 minutes, type = access\x7d` signed with the secret. -/
def AuthService.create_access_token (sub : String) (now : Int) : JWT :=
  .signed ⟨sub, now + accessTokenSecs, .access⟩

/-- Embeds `AuthService.create_refresh_token`: claim set
`\x7bsub, exp = now + 7 days, type = refresh\x7d` signed with the secret. -/
def AuthService.create_refresh_token (sub : String) (now : Int) : JWT :=
  .signed ⟨sub, now + refreshTokenSecs, .refresh⟩

/-- Embeds the classmethod `AuthService._get_user_by_username(cls, session,
username)` (`auth_service.py:121`): a `SELECT` on the `users` table
filtered by username, then `scalar_one_or_none`.  The class body defines
`_get_user_by_username` twice — an instance method `(self, username)` at
line 57 and this classmethod at line 121 — and the later definition is the
one bound to the name, so this is the only lookup that can actually run
(it does, correctly, in `get_current_user`, which passes both arguments). -/
def AuthService._get_user_by_username (st : List User) (username : String) :
    Except PyError (Option User) :=
  scalarOneOrNone (st.filter fun u => decide (u.username = username))

/-- Embeds the call `self._get_user_by_username(username)` as it actually
resolves in the source (`auth_service.py:37` in `login` and `:149` in
`verify_refresh_token`): because the classmethod at line 121 shadows the
instance method at line 57, the one-argument call binds the username to
the classmethod's `session` parameter and raises
`TypeError: missing 1 required positional argument` before any query
runs. -/
def AuthService.shadowed_get_user_by_username (username : String) :
    Except PyError (Option User) :=
  .error .typeError

/-- Embeds `pwd_context.verify(plain, digest)` for
`CryptContext(schemes=["bcrypt"])`, following passlib's documented
contract: a digest in bcrypt format verifies by recomputing the hash
(true exactly when the plaintext matches); a digest that cannot be
identified as a configured scheme makes `verify` raise
`UnknownHashError` (a `ValueError`) rather than return `False`. -/
def pwd_context_verify (plain : String) (d : Digest) : Except PyError Bool :=
  match d with
  | .bcrypt _ p => .ok (decide (plain = p))
  | .unrecognized _ => .error .unknownHash

/-- Embeds `AuthService.verify_password`: delegates to `pwd_context.verify`. -/
def AuthService.verify_password (plain : String) (hashed : Digest) :
    Except PyError Bool :=
  pwd_context_verify plain hashed

/-- The token triple returned by login / refresh. -/
structure TokenPair where
  access_token : JWT
  refresh_tok : JWT
  token_type : String
deriving DecidableEq, Repr

/-- The store update performed by `user.refresh_token = refresh_token`
followed by `commit()`: the row with the user's primary key gets the new
refresh token. -/
def setRefreshTok (st : List User) (uid : Nat) (rt : JWT) : List User :=
  st.map fun v => if v.id = uid then { v with refresh_token := some rt } else v

/-- Embeds `AuthService._create_tokens`: issues one access and one refresh token
for the user's username, persists the refresh token onto the user row and
returns the triple with label `"bearer"`. -/
def AuthService._create_tokens (user : User) (now : Int) (st : List User) :
    Except PyError (TokenPair × List User) :=
  let atk := AuthService.create_access_token user.username now
  let rtk := AuthService.create_refresh_token user.username now
  .ok (⟨atk, rtk, "bearer"⟩, setRefreshTok st user.id rtk)

/-- Embeds `AuthService.login` as written, shadowing included: the first
statement is the one-argument `self._get_user_by_username(form_data.username)`
call, which raises `TypeError` (see `shadowed_get_user_by_username`), so
the credential checks and `_create_tokens` below it are dead code — every
login, whatever the credentials, ends in that `TypeError`. -/
def AuthService.login (username password : String) (now : Int)
    (st : List User) : Except PyError (TokenPair × List User) :=
  match AuthService.shadowed_get_user_by_username username with
  | .error e => .error e
  | .ok none => .error incorrectCreds
  | .ok (some user) =>
    match AuthService.verify_password password user.hashed_password with
    | .error e => .error e
    | .ok false => .error incorrectCreds
    | .ok true => AuthService._create_tokens user now st

/-- Embeds the `POST /auth/token` handler (`app/api/auth.py`): an
`HTTPException` from the service propagates with its status and detail;
any other exception — here the `TypeError` from the shadowed lookup — is
answered with the generic 500. -/
def login_endpoint (username password : String) (now : Int)
    (st : List User) : Except PyError (TokenPair × List User) :=
  match AuthService.login username password now st with
  | .ok r => .ok r
  | .error (.http s d hs) => .error (.http s d hs)
  | .error _ =>
    .error (.http 500 "Internal server error during authentication" [])

/-- Embeds `AuthService.verify_refresh_token` as written, shadowing
included: decode (signature and expiry), check the `type` claim, check the
`sub` claim is non-empty — and then the one-argument
`self._get_user_by_username(username)` call at `auth_service.py:149`
raises `TypeError`, so the lookup and the byte-for-byte comparison of the
stored `refresh_token` column against the presented token (line 150) are
dead code: every decodable refresh token ends in that `TypeError`. -/
def AuthService.verify_refresh_token (token : JWT) (now : Int)
    (st : List User) : Except PyError User :=
  match jwt_decode token now with
  | none => .error invalidRefresh
  | some payload =>
    if payload.typ ≠ .refresh then .error invalidRefresh
    else if payload.sub = "" then
      .error (.http 401 "Invalid token payload" bearerHeader)
    else
      match AuthService.shadowed_get_user_by_username payload.sub with
      | .error e => .error e
      | .ok none => .error invalidRefresh
      | .ok (some user) =>
        if user.refresh_token ≠ some token then .error invalidRefresh
        else .ok user

/-- Modelled from the spec: the method `AuthService.refresh_token` invoked
by the `POST /auth/refresh` endpoint (`app/api/auth.py`) is absent from the
source tree — only its caller exists.  Per the spec, `refresh` fails with
`InvalidToken` (401) when verification of the presented refresh token
fails, and on success "issues a new access and a new refresh token pair
(rotation — the old refresh token is immediately invalidated by being
overwritten), persists, returns both"; i.e. it composes the two helpers
that are present in the source. -/
def AuthService.refresh_token (token : JWT) (now : Int) (st : List User) :
    Except PyError (TokenPair × List User) :=
  match AuthService.verify_refresh_token token now st with
  | .error e => .error e
  | .ok user => AuthService._create_tokens user now st

/-!
## Schemas (`app/schemas/task.py`, `app/schemas/user.py`)
-/

/-- Embeds `TaskCreate.validate_datetime_to_do` (`app/schemas/task.py`): the
ISO-parsing and naive-timezone branches are resolved already (`v` is the
resulting UTC timestamp); the validator rejects exactly the values with
`v < now` ("Task execution date must be in the future"), wrapping the
message as the code's outer handler does. -/
def TaskCreate.validate_datetime_to_do (v now : Int) : Except String Int :=
  if v < now then
    .error "Date validation error: Task execution date must be in the future"
  else .ok v

/-- Embeds `TaskUpdate.validate_datetime_to_do` (`app/schemas/task.py`): `None`
passes through; otherwise the same strict-past check as on creation. -/
def TaskUpdate.validate_datetime_to_do (v : Option Int) (now : Int) :
    Except String (Option Int) :=
  match v with
  | none => .ok none
  | some v =>
    if v < now then .error "Task execution date must be in the future"
    else .ok (some v)

/-- The `TaskUpdate` patch after validation.  `some x` is a field present
in the request body with value `x`; `none` is a field omitted from the
patch (`model_dump(exclude_unset=True)` drops it).  An explicit JSON
`null` for a field (also kept by `exclude_unset`) would set the column to
`NULL` and be refused by the store's NOT NULL constraints; such patches
are outside this model. -/
structure TaskUpdate where
  datetime_to_do : Option Int
  task_info : Option String
  is_completed : Option Bool
deriving DecidableEq, Repr

/-- The `for key, value in update_data.items(): setattr(task, key, value)`
loop of `TaskService.update_task`: fields present in the patch overwrite
the row, absent fields are untouched.  `user_id`, `id`, `created_at` are
not in the `TaskUpdate` schema and can never appear in `update_data`. -/
def applyPatch (t : Task) (p : TaskUpdate) : Task :=
  { t with
    datetime_to_do := p.datetime_to_do.getD t.datetime_to_do
    task_info := p.task_info.getD t.task_info
    is_completed := p.is_completed.getD t.is_completed }

/-!
## Task service (`app/services/task_service.py`)
-/

/-- Embeds `TaskService.read_task`: select by id, `scalar_one_or_none`, 404 when
no row, 403 when the row's `user_id` differs from the caller, else the
task. -/
def TaskService.read_task (task_id uid : Nat) (st : List Task) :
    Except PyError Task :=
  match scalarOneOrNone (st.filter fun t => decide (t.id = task_id)) with
  | .error e => .error e
  | .ok none => .error (.http 404 "Task not found" [])
  | .ok (some t) =>
    if t.user_id ≠ uid then
      .error (.http 403 "You are not allowed to read this task" [])
    else .ok t

/-- Embeds `TaskService.update_task`: same lookup and checks as `read_task`
(detail "You are not allowed to update this task"), then the patch loop
and `commit`; the `onupdate` hook of `Task.updated_at`
(`app/db/models.py`) refreshes the timestamp when the row is written. -/
def TaskService.update_task (task_id : Nat) (p : TaskUpdate) (uid : Nat)
    (now : Int) (st : List Task) : Except PyError (Task × List Task) :=
  match scalarOneOrNone (st.filter fun t => decide (t.id = task_id)) with
  | .error e => .error e
  | .ok none => .error (.http 404 "Task not found" [])
  | .ok (some t) =>
    if t.user_id ≠ uid then
      .error (.http 403 "You are not allowed to update this task" [])
    else
      let t' := { applyPatch t p with updated_at := now }
      .ok (t', st.map fun x => if x.id = task_id then t' else x)

/-- Embeds `TaskService.list_tasks`: select, optionally filtered by `user_id`,
then `offset(skip).limit(limit)`.  The query has **no** `order_by`, so the
result simply follows the order in which the store yields the rows. -/
def TaskService.list_tasks (user_id : Option Nat) (skip limit : Nat)
    (st : List Task) : List Task :=
  let q : List Task := match user_id with
    | some uid => st.filter fun t => decide (t.user_id = uid)
    | none => st
  (q.drop skip).take limit

/-- Modelled from the spec: the method `TaskService.delete_task` invoked by
the `DELETE /tasks/...` endpoint (`app/api/tasks.py`) is absent from the
source tree — only its caller exists.  Per the spec, `delete(task_id,
caller_id)` performs the "same existence/ownership check" as `get`/`update`
(404 when no such task, 403 when the owner differs) and then permanently
removes the row; the endpoint answers 204 with no body. -/
def TaskService.delete_task (task_id uid : Nat) (st : List Task) :
    Except PyError (List Task) :=
  match scalarOneOrNone (st.filter fun t => decide (t.id = task_id)) with
  | .error e => .error e
  | .ok none => .error (.http 404 "Task not found" [])
  | .ok (some t) =>
    if t.user_id ≠ uid then
      .error (.http 403 "You are not allowed to delete this task" [])
    else .ok (st.filter fun x => decide (x.id ≠ task_id))

/-- The `GET /tasks/` handler `read_tasks` (`app/api/tasks.py`): it calls
`list_tasks(user_id=current_user.id)` and nothing else — it declares no
offset/limit query parameters, so the service defaults `skip=0, limit=10`
always apply. -/
def read_tasks (current_uid : Nat) (st : List Task) : List Task :=
  TaskService.list_tasks (some current_uid) 0 10 st

/-!
## Password validation and registration (`app/schemas/user.py`,
`AuthService.register`)
-/

/-- The character class `[A-Z]` of the validator's regex. -/
def isUpperAZ (c : Char) : Bool := 'A' ≤ c && c ≤ 'Z'

/-- The character class `[a-z]`. -/
def isLowerAZ (c : Char) : Bool := 'a' ≤ c && c ≤ 'z'

/-- The inclusive codepoint ranges of the Unicode decimal-digit category
`Nd` (Unicode 14.0, as shipped in CPython's `unicodedata`).  On a Python 3
`str`, the validator's `\d` regex matches exactly this category — not just
ASCII `0-9` — since `re.UNICODE` is the default for `str` patterns. -/
def ndRanges : List (Nat × Nat) :=
  [(0x30, 0x39), (0x660, 0x669), (0x6F0, 0x6F9), (0x7C0, 0x7C9),
   (0x966, 0x96F), (0x9E6, 0x9EF), (0xA66, 0xA6F), (0xAE6, 0xAEF),
   (0xB66, 0xB6F), (0xBE6, 0xBEF), (0xC66, 0xC6F), (0xCE6, 0xCEF),
   (0xD66, 0xD6F), (0xDE6, 0xDEF), (0xE50, 0xE59), (0xED0, 0xED9),
   (0xF20, 0xF29), (0x1040, 0x1049), (0x1090, 0x1099), (0x17E0, 0x17E9),
   (0x1810, 0x1819), (0x1946, 0x194F), (0x19D0, 0x19D9), (0x1A80, 0x1A89),
   (0x1A90, 0x1A99), (0x1B50, 0x1B59), (0x1BB0, 0x1BB9), (0x1C40, 0x1C49),
   (0x1C50, 0x1C59), (0xA620, 0xA629), (0xA8D0, 0xA8D9), (0xA900, 0xA909),
   (0xA9D0, 0xA9D9), (0xA9F0, 0xA9F9), (0xAA50, 0xAA59), (0xABF0, 0xABF9),
   (0xFF10, 0xFF19), (0x104A0, 0x104A9), (0x10D30, 0x10D39), (0x11066, 0x1106F),
   (0x110F0, 0x110F9), (0x11136, 0x1113F), (0x111D0, 0x111D9), (0x112F0, 0x112F9),
   (0x11450, 0x11459), (0x114D0, 0x114D9), (0x11650, 0x11659), (0x116C0, 0x116C9),
   (0x11730, 0x11739), (0x118E0, 0x118E9), (0x11950, 0x11959), (0x11C50, 0x11C59),
   (0x11D50, 0x11D59), (0x11DA0, 0x11DA9), (0x16A60, 0x16A69), (0x16AC0, 0x16AC9),
   (0x16B50, 0x16B59), (0x1D7CE, 0x1D7FF), (0x1E140, 0x1E149), (0x1E2F0, 0x1E2F9),
   (0x1E950, 0x1E959), (0x1FBF0, 0x1FBF9)]

/-- The character class `\d` of the validator's regex: any Unicode decimal
digit (category `Nd`). -/
def isDigitNd (c : Char) : Bool :=
  ndRanges.any fun r => r.1 ≤ c.toNat && c.toNat ≤ r.2

/-- The special characters accepted by the validator's last regex:
`! @ # $ % ^ & * ( ) , . ? " : open-brace close-brace | < >`. -/
def specialChars : List Char :=
  ['!', '@', '#', '$', '%', '^', '&', '*', '(', ')', ',', '.', '?', '"',
   ':', '\x7b', '\x7d', '|', '<', '>']

/-- Membership in the special-character class. -/
def isSpecialChar (c : Char) : Bool := specialChars.contains c

/-- Embeds the `UserCreate.password` validation: the annotated field constraints
(`min_length=8`, `max_length=100`) run first, then the `field_validator`
checks, in source order.  The validator's own `len(v) < 8` re-check is kept
even though the field constraint fires first. -/
def UserCreate.validate_password (v : String) : Except String String :=
  if v.length < 8 then .error "String should have at least 8 characters"
  else if 100 < v.length then
    .error "String should have at most 100 characters"
  else if v.length < 8 then
    .error "Password must be at least 8 characters long"
  else if !v.data.any isUpperAZ then
    .error "Password must contain at least one uppercase letter"
  else if !v.data.any isLowerAZ then
    .error "Password must contain at least one lowercase letter"
  else if !v.data.any isDigitNd then
    .error "Password must contain at least one number"
  else if !v.data.any isSpecialChar then
    .error "Password must contain at least one special character"
  else .ok v

/-- Embeds `AuthService.register`: duplicate-username check, bcrypt hash with a
fresh `salt`, insert of a row with `refresh_token = NULL` and the
store-assigned id `newId`.  Returns the result together with the store
after the call (unchanged on failure). -/
def AuthService.register (username password : String) (salt newId : Nat)
    (st : List User) : Except PyError User × List User :=
  match scalarOneOrNone (st.filter fun u => decide (u.username = username)) with
  | .error e => (.error e, st)
  | .ok (some _) => (.error (.http 400 "Username already registered" []), st)
  | .ok none =>
    let u : User := ⟨newId, username, .bcrypt salt password, none, true⟩
    (.ok u, st ++ [u])

/-- The `POST /auth/register` pipeline: FastAPI validates the `UserCreate`
body (in particular the password) before `AuthService.register` runs, so
an invalid password is answered with a 422 validation error and the store
is never touched.  The orthogonal username/email validators are not
modelled. -/
def register_endpoint (username password : String) (salt newId : Nat)
    (st : List User) : Except PyError User × List User :=
  match UserCreate.validate_password password with
  | .error e => (.error (.http 422 e []), st)
  | .ok _ => AuthService.register username password salt newId st

/-!
## Demonstration stores for the witnesses and counterexamples
-/

/-- A task owned by user 1 (claim C3 demonstrations). -/
def c3task : Task := ⟨1, 0, 0, 100, "Buy milk", false, 1⟩

/-- A one-task store (claim C3 demonstrations). -/
def c3store : List Task := [c3task]

/-- A registered user with a bcrypt-hashed password (claim C5). -/
def c5alice : User := ⟨1, "alice", .bcrypt 3 "StrongPass1!", none, true⟩

/-- A one-user store (claim C5). -/
def c5store : List User := [c5alice]

/-!
## Claims
-/

/-- C3: `get` and `update` check existence before ownership: with no row
for the id both fail 404 `Task not found`; with a row owned by someone
else both fail 403 (never 404, and `read_task` returns no content); with
the caller's own row `read_task` returns the task. -/
theorem read_update_existence_before_ownership
    (task_id uid : Nat) (p : TaskUpdate) (now : Int) (st : List Task) :
    (scalarOneOrNone (st.filter fun t => decide (t.id = task_id)) = .ok none →
      TaskService.read_task task_id uid st =
        .error (.http 404 "Task not found" []) ∧
      TaskService.update_task task_id p uid now st =
        .error (.http 404 "Task not found" [])) ∧
    (∀ t, scalarOneOrNone (st.filter fun t => decide (t.id = task_id)) =
        .ok (some t) → t.user_id ≠ uid →
      TaskService.read_task task_id uid st =
        .error (.http 403 "You are not allowed to read this task" []) ∧
      TaskService.update_task task_id p uid now st =
        .error (.http 403 "You are not allowed to update this task" [])) ∧
    (∀ t, scalarOneOrNone (st.filter fun t => decide (t.id = task_id)) =
        .ok (some t) → t.user_id = uid →
      TaskService.read_task task_id uid st = .ok t) := by
  refine ⟨fun h => ?_, fun t h ht => ?_, fun t h ht => ?_⟩
  · unfold TaskService.read_task TaskService.update_task
    rw [h]
    exact ⟨rfl, rfl⟩
  · unfold TaskService.read_task TaskService.update_task
    rw [h]
    simp [ht]
  · unfold TaskService.read_task
    rw [h]
    simp [ht]

/-- Witness for C3: in a concrete store, user 2 reading/updating user 1's
task gets 403 (not 404). -/
theorem read_update_existence_before_ownership_witness :
    TaskService.read_task 1 2 c3store =
      .error (.http 403 "You are not allowed to read this task" []) ∧
    TaskService.update_task 1 ⟨none, some "x", none⟩ 2 50 c3store =
      .error (.http 403 "You are not allowed to update this task" []) :=
  (read_update_existence_before_ownership 1 2 ⟨none, some "x", none⟩ 50
    c3store).2.1 c3task (by rfl) (by decide)

/-- C5 (code bug): login crashes before either credential check.  Against
a store holding only alice, logging in as the absent "bob" and logging in
as "alice" with a wrong password both hit the `TypeError` raised by the
shadowed `_get_user_by_username` call — the first statement of `login` —
and the router answers the generic 500 for both.  Neither cause ever
produces the 401 `Incorrect username or password` that the claim (and the
spec's `InvalidCredentials` contract) describe, as the last conjunct
records. -/
theorem login_failure_code_bug :
    AuthService.login "bob" "whatever" 0 c5store = .error .typeError ∧
    AuthService.login "alice" "WrongPass" 0 c5store = .error .typeError ∧
    login_endpoint "bob" "whatever" 0 c5store =
      .error (.http 500 "Internal server error during authentication" []) ∧
    login_endpoint "alice" "WrongPass" 0 c5store =
      .error (.http 500 "Internal server error during authentication" []) ∧
    PyError.typeError ≠ incorrectCreds := by
  exact ⟨rfl, rfl, rfl, rfl, by decide⟩

/-- C6 counterexample: a `datetime_to_do` equal to the current instant is
accepted by both validators (`if v < now` is strict), while the claim says
it must fail with `InvalidInput`. -/
theorem datetime_boundary_counterexample :
    TaskCreate.validate_datetime_to_do 1000 1000 = .ok 1000 ∧
    TaskUpdate.validate_datetime_to_do (some 1000) 1000 = .ok (some 1000) := by
  decide

/-- C6 amended: the validators reject exactly the strictly past instants;
a `datetime_to_do` equal to (or later than) the current instant passes. -/
theorem datetime_validator_amended (v now : Int) :
    (TaskCreate.validate_datetime_to_do v now = .ok v ↔ now ≤ v) ∧
    (TaskCreate.validate_datetime_to_do v now =
      .error "Date validation error: Task execution date must be in the future"
      ↔ v < now) ∧
    (TaskUpdate.validate_datetime_to_do (some v) now = .ok (some v) ↔ now ≤ v) ∧
    TaskUpdate.validate_datetime_to_do none now = .ok none := by
  refine ⟨?_, ?_, ?_, rfl⟩
  · by_cases h : v < now <;>
      simp [TaskCreate.validate_datetime_to_do, h] <;> omega
  · by_cases h : v < now <;>
      simp [TaskCreate.validate_datetime_to_do, h] <;> omega
  · by_cases h : v < now <;>
      simp [TaskUpdate.validate_datetime_to_do, h] <;> omega

/-- Witness for C6 amended: a future instant passes, a past one fails. -/
theorem datetime_validator_amended_witness :
    TaskCreate.validate_datetime_to_do 7 5 = .ok 7 ∧
    TaskCreate.validate_datetime_to_do 3 5 =
      .error "Date validation error: Task execution date must be in the future" :=
  ⟨(datetime_validator_amended 7 5).1.mpr (by decide),
   (datetime_validator_amended 3 5).2.1.mpr (by decide)⟩

/-- C7 counterexample: on a digest that passlib cannot identify as a hash
of a configured scheme, `verify_password` raises `UnknownHashError`
instead of returning false — contradicting the "never throws on malformed
digests" clause. -/
theorem verify_password_counterexample :
    AuthService.verify_password "pw" (.unrecognized "fake_hashed_password") =
      .error .unknownHash ∧
    AuthService.verify_password "pw" (.unrecognized "fake_hashed_password") ≠
      .ok false := by
  exact ⟨rfl, by decide⟩

/-- C7 amended: on a well-formed bcrypt digest, `verify_password` returns
true exactly when the plaintext matches and false otherwise; on a digest
not recognized as any configured scheme it raises `UnknownHashError`. -/
theorem verify_password_amended (plain p raw : String) (salt : Nat) :
    (plain = p →
      AuthService.verify_password plain (.bcrypt salt p) = .ok true) ∧
    (plain ≠ p →
      AuthService.verify_password plain (.bcrypt salt p) = .ok false) ∧
    AuthService.verify_password plain (.unrecognized raw) =
      .error .unknownHash := by
  refine ⟨fun h => ?_, fun h => ?_, rfl⟩ <;>
    simp [AuthService.verify_password, pwd_context_verify, h]

/-- Witness for C7 amended: matching and non-matching plaintexts against a
concrete bcrypt digest. -/
theorem verify_password_amended_witness :
    AuthService.verify_password "StrongPass1!" (.bcrypt 3 "StrongPass1!") =
      .ok true ∧
    AuthService.verify_password "WrongPass" (.bcrypt 3 "StrongPass1!") =
      .ok false :=
  ⟨(verify_password_amended "StrongPass1!" "StrongPass1!" "" 3).1 rfl,
   (verify_password_amended "WrongPass" "StrongPass1!" "" 3).2.1 (by decide)⟩

/-- C9: `update_task` applies only the fields present in the patch.  Every
patchable field absent from the patch keeps its prior value, and `id`,
`created_at` and the owner `user_id` — which the `TaskUpdate` schema does
not even contain — are never changed.  (`updated_at` is refreshed by the
ORM's `onupdate` hook by design, as the spec states separately.) -/
theorem update_partial_patch_frame
    (task_id : Nat) (p : TaskUpdate) (uid : Nat) (now : Int)
    (st : List Task) (t t' : Task) (st' : List Task)
    (hfind : scalarOneOrNone (st.filter fun x => decide (x.id = task_id)) =
      .ok (some t))
    (hupd : TaskService.update_task task_id p uid now st = .ok (t', st')) :
    (p.datetime_to_do = none → t'.datetime_to_do = t.datetime_to_do) ∧
    (p.task_info = none → t'.task_info = t.task_info) ∧
    (p.is_completed = none → t'.is_completed = t.is_completed) ∧
    t'.user_id = t.user_id ∧ t'.id = t.id ∧ t'.created_at = t.created_at := by
  unfold TaskService.update_task at hupd
  rw [hfind] at hupd
  by_cases hown : t.user_id = uid
  · simp only [hown, ne_eq, not_true_eq_false, if_false, ite_not] at hupd
    simp only [if_true, Except.ok.injEq, Prod.mk.injEq] at hupd
    have ht' : t' = { applyPatch t p with updated_at := now } := hupd.1.symm
    subst ht'
    refine ⟨fun h => ?_, fun h => ?_, fun h => ?_, ?_, ?_, ?_⟩ <;>
      simp [applyPatch] <;> simp [h]
  · simp [hown] at hupd

/-- The task of the C9 witness store. -/
def c9task : Task := ⟨1, 10, 10, 500, "Test task", false, 1⟩

/-- The C9 witness store. -/
def c9store : List Task := [c9task]

/-- The partial patch of the C9 witness: only `task_info` present. -/
def c9patch : TaskUpdate := ⟨none, some "Updated task", none⟩

/-- The row after the C9 witness update. -/
def c9after : Task := ⟨1, 10, 99, 500, "Updated task", false, 1⟩

/-- Witness for C9: updating only `task_info` leaves the schedule, the
completion flag and the owner untouched in a concrete store. -/
theorem update_partial_patch_frame_witness :
    c9after.datetime_to_do = c9task.datetime_to_do ∧
    c9after.is_completed = c9task.is_completed ∧
    c9after.user_id = c9task.user_id := by
  have h := update_partial_patch_frame 1 c9patch 1 99 c9store c9task c9after
    [c9after] (by rfl) (by rfl)
  exact ⟨h.1 rfl, h.2.2.1 rfl, h.2.2.2.1⟩

/-- C10: registration accepts a password exactly when it is 8–100
characters long and contains an uppercase letter, a lowercase letter, a
digit and a special character from the validator's class; an invalid
password is rejected with a validation error and the credential store is
left untouched. -/
theorem register_password_policy (pw : String) :
    ((UserCreate.validate_password pw).isOk = true ↔
      (8 ≤ pw.length ∧ pw.length ≤ 100 ∧ pw.data.any isUpperAZ = true ∧
       pw.data.any isLowerAZ = true ∧ pw.data.any isDigitNd = true ∧
       pw.data.any isSpecialChar = true)) ∧
    (∀ (username : String) (salt newId : Nat) (st : List User) (e : String),
      UserCreate.validate_password pw = .error e →
      register_endpoint username pw salt newId st =
        (.error (.http 422 e []), st)) := by
  constructor
  · unfold UserCreate.validate_password
    split_ifs with h1 h2 h3 h4 h5 h6 h7 <;> simp_all [Except.isOk, Except.toBool] <;> omega
  · intro username salt newId st e h
    unfold register_endpoint
    rw [h]

/-- Witness for C10: a compliant password passes and a too-short one is
rejected without touching an empty store. -/
theorem register_password_policy_witness :
    (UserCreate.validate_password "StrongPass1!").isOk = true ∧
    register_endpoint "john_doe" "weak" 5 1 [] =
      (.error (.http 422 "String should have at least 8 characters" []), []) :=
  ⟨(register_password_policy "StrongPass1!").1.mpr (by decide),
   (register_password_policy "weak").2 "john_doe" 5 1 []
     "String should have at least 8 characters" (by rfl)⟩

/-- C2: `delete_task` (modelled from the spec, the method being absent
from the source) fails 404 when no task with the id exists, 403 when the
task belongs to another user, and otherwise permanently removes exactly
that task from the store (the endpoint then answers 204 with no body). -/
theorem delete_task_checks_and_removes (task_id uid : Nat) (st : List Task) :
    (scalarOneOrNone (st.filter fun t => decide (t.id = task_id)) = .ok none →
      TaskService.delete_task task_id uid st =
        .error (.http 404 "Task not found" [])) ∧
    (∀ t, scalarOneOrNone (st.filter fun t => decide (t.id = task_id)) =
        .ok (some t) → t.user_id ≠ uid →
      TaskService.delete_task task_id uid st =
        .error (.http 403 "You are not allowed to delete this task" [])) ∧
    (∀ t, scalarOneOrNone (st.filter fun t => decide (t.id = task_id)) =
        .ok (some t) → t.user_id = uid →
      ∃ st', TaskService.delete_task task_id uid st = .ok st' ∧
        ∀ x, x ∈ st' ↔ (x ∈ st ∧ x.id ≠ task_id)) := by
  refine ⟨fun h => ?_, fun t h ht => ?_, fun t h ht => ?_⟩
  · unfold TaskService.delete_task
    rw [h]
  · unfold TaskService.delete_task
    rw [h]
    simp [ht]
  · refine ⟨st.filter fun x => decide (x.id ≠ task_id), ?_, fun x => ?_⟩
    · unfold TaskService.delete_task
      rw [h]
      simp [ht]
    · simp [List.mem_filter]

/-- The task of the C2 witness store. -/
def c2task : Task := ⟨1, 0, 0, 100, "Buy milk", false, 1⟩

/-- The C2 witness store. -/
def c2store : List Task := [c2task]

/-- Witness for C2: a missing id gives 404 and a foreign owner gives 403
in a concrete store. -/
theorem delete_task_checks_and_removes_witness :
    TaskService.delete_task 9 1 c2store =
      .error (.http 404 "Task not found" []) ∧
    TaskService.delete_task 1 2 c2store =
      .error (.http 403 "You are not allowed to delete this task" []) :=
  ⟨(delete_task_checks_and_removes 9 1 c2store).1 (by rfl),
   (delete_task_checks_and_removes 1 2 c2store).2.1 c2task (by rfl) (by decide)⟩

/-- The user of the C4 witness store. -/
def c4alice : User := ⟨1, "alice", .bcrypt 2 "GoodPass1!", none, true⟩

/-- The C4 witness store. -/
def c4store : List User := [c4alice]

/-- C4 (code bug): the single-active-refresh-token mechanism is
unreachable.  Every login — whatever the store, credentials and clock —
crashes with the `TypeError` from the shadowed `_get_user_by_username`
call before `_create_tokens` can persist anything, and every verification
of a decodable refresh-type token with a non-empty subject crashes at the
same shadowed call before the byte-for-byte comparison against the stored
value (auth_service.py:150) is reached.  So no login ever overwrites a
stored refresh token and no verification ever accepts one; the overwrite
and comparison the claim describes exist in the source only as dead
code. -/
theorem single_active_refresh_token_code_bug :
    (∀ (st : List User) (username password : String) (now : Int),
      AuthService.login username password now st = .error .typeError) ∧
    (∀ (st : List User) (c : Claims) (now : Int), c.typ = .refresh →
      c.sub ≠ "" → ¬ c.exp < now →
      AuthService.verify_refresh_token (JWT.signed c) now st =
        .error .typeError) := by
  constructor
  · intro st username password now
    rfl
  · intro st c now htyp hsub hexp
    unfold AuthService.verify_refresh_token
    simp [jwt_decode, hexp, htyp, hsub, AuthService.shadowed_get_user_by_username]

/-- Witness for C4: the concrete login of the stored user and the concrete
verification of a well-formed refresh token both end in the `TypeError`. -/
theorem single_active_refresh_token_code_bug_witness :
    AuthService.login "alice" "GoodPass1!" 0 c4store = .error .typeError ∧
    AuthService.verify_refresh_token (JWT.signed ⟨"alice", 604800, .refresh⟩)
        0 c4store = .error .typeError :=
  ⟨single_active_refresh_token_code_bug.1 c4store "alice" "GoodPass1!" 0,
   single_active_refresh_token_code_bug.2 c4store ⟨"alice", 604800, .refresh⟩
     0 rfl (by decide) (by decide)⟩

/-- Ascending task-id order. -/
def idAscending (l : List Task) : Prop :=
  List.Pairwise (fun a b => a.id < b.id) l

instance : DecidablePred idAscending := fun l =>
  List.instDecidablePairwise l

/-- C8 counterexample: the `list_tasks` query has no `ORDER BY`, so the
result follows the store's row order; a store that yields the rows of
owner 1 as id 2 before id 1 makes `list_tasks` return them in that order,
not ascending by id as the claim states. -/
theorem list_tasks_counterexample :
    TaskService.list_tasks (some 1) 0 10
        [⟨2, 0, 0, 100, "second", false, 1⟩, ⟨1, 0, 0, 100, "first", false, 1⟩] =
      [⟨2, 0, 0, 100, "second", false, 1⟩, ⟨1, 0, 0, 100, "first", false, 1⟩] ∧
    ¬ idAscending
        [⟨2, 0, 0, 100, "second", false, 1⟩, ⟨1, 0, 0, 100, "first", false, 1⟩] := by
  exact ⟨rfl, by decide⟩

/-- C8 amended: `list_tasks` returns only the caller's tasks and applies
`offset`/`limit` as a window over the store's row order; ascending-id
order holds only when the store already yields the rows ascending (no
`ORDER BY` is issued).  The `GET /tasks/` handler passes no offset/limit
at all, so its result is always the first 10 filtered rows. -/
theorem list_tasks_amended (uid skip limit : Nat) (st : List Task) :
    (∀ t ∈ TaskService.list_tasks (some uid) skip limit st, t.user_id = uid) ∧
    (∀ i, i < limit →
      (TaskService.list_tasks (some uid) skip limit st)[i]? =
        (st.filter fun t => decide (t.user_id = uid))[skip + i]?) ∧
    (idAscending st →
      idAscending (TaskService.list_tasks (some uid) skip limit st)) ∧
    (read_tasks uid st).length ≤ 10 := by
  refine ⟨fun t ht => ?_, fun i hi => ?_, fun hsort => ?_, ?_⟩
  · unfold TaskService.list_tasks at ht
    have h1 : t ∈ (st.filter fun t => decide (t.user_id = uid)).drop skip :=
      List.mem_of_mem_take ht
    have h2 : t ∈ st.filter fun t => decide (t.user_id = uid) :=
      List.mem_of_mem_drop h1
    exact of_decide_eq_true (List.mem_filter.mp h2).2
  · unfold TaskService.list_tasks
    rw [List.getElem?_take]
    simp only [hi, if_true]
    exact List.getElem?_drop ..
  · unfold idAscending at hsort ⊢
    unfold TaskService.list_tasks
    exact ((hsort.filter _).sublist (List.drop_sublist ..)).sublist
      (List.take_sublist ..)
  · unfold read_tasks TaskService.list_tasks
    exact List.length_take_le ..

/-- A two-task store whose rows come out ascending (C8 witness). -/
def c8store : List Task :=
  [⟨1, 0, 0, 100, "first", false, 1⟩, ⟨2, 0, 0, 100, "second", false, 1⟩,
   ⟨3, 0, 0, 100, "third", false, 2⟩]

/-- Witness for C8 amended: on a store yielding rows ascending, the window
`skip = 1, limit = 2` of owner 1's tasks keeps the ascending order. -/
theorem list_tasks_amended_witness :
    idAscending (TaskService.list_tasks (some 1) 1 2 c8store) ∧
    (TaskService.list_tasks (some 1) 1 2 c8store)[0]? =
      (c8store.filter fun t => decide (t.user_id = 1))[1 + 0]? :=
  ⟨(list_tasks_amended 1 1 2 c8store).2.2.1 (by decide),
   (list_tasks_amended 1 1 2 c8store).2.1 0 (by decide)⟩

/-- The claim set of the C1 refresh token: issued to "alice" at time 0,
expiring 7 days later. -/
def c1claims : Claims := ⟨"alice", 604800, .refresh⟩

/-- The C1 refresh token string. -/
def c1tok : JWT := .signed c1claims

/-- The C1 user, holding `c1tok` in the stored `refresh_token` column. -/
def c1user : User := ⟨1, "alice", .bcrypt 0 "GoodPass1!", some c1tok, true⟩

/-- The C1 store. -/
def c1store : List User := [c1user]

/-- C1 (code bug): refresh never succeeds on any input, in particular not
for a user holding a stored, well-formed, unexpired refresh token — the
very input on which the claim promises a successful rotation followed by
a 401 on reuse.  The router calls `auth_service.refresh_token`, a method
that does not exist in the source (AttributeError, answered as a 500),
and the spec-modelled composition of the helpers that do exist still
crashes inside `verify_refresh_token`: after the token decodes and its
type and subject check out, the shadowed `_get_user_by_username` call at
`auth_service.py:149` raises `TypeError`, so neither token issuance nor
the rotation overwrite is ever reached. -/
theorem refresh_rotation_code_bug :
    c1user.refresh_token = some c1tok ∧
    AuthService.refresh_token c1tok 0 c1store = .error .typeError := by
  exact ⟨rfl, by decide⟩

end ToDoApp
